import Mathlib

/-
Shallow embedding of src/ultralytics/utils/autobatch.py.

The file models the two functions of that module:

  * check_train_batch_size (lines 17-87): a subprocess-isolation wrapper that
    serializes the model to a temporary file, re-invokes autobatch in a child
    process, and parses a JSON object from the child's stdout.
  * autobatch (lines 90-147): the linear-fit batch-size estimator.

External effects (the device of the model, the success of torch.save, the
child process exit status, the parsed shape of the child's stdout, the CUDA
memory counters, and the profiler's per-candidate results) are abstracted
into environment records; the control flow, arithmetic, clamping, logging
and file cleanup of the module itself are translated statement by statement.
Real-valued memory quantities are modelled with exact rationals.
-/

/-- Outcome of a Python call as seen by the caller: either a normal return
(with the Python value None modelled as Option.none) or an exception that
escapes to the caller. -/
inductive PyOutcome where
  | ret (v : Option Int)
  | raised
deriving DecidableEq, Repr

/-- Classification of the child process stdout as json.loads at line 65 sees
it. withError is any JSON object carrying an "error" field (checked first at
line 66); withBatch is a JSON object without "error" but with a "batch_size"
field holding the integer v; missingBatch is any other valid JSON (the
lookup output["batch_size"] at line 68 then raises); notJson is a stdout
string that is not valid JSON (json.loads raises JSONDecodeError). -/
inductive ParsedStdout where
  | notJson (raw : String)
  | withError (msg : String)
  | withBatch (v : Int)
  | missingBatch
deriving DecidableEq, Repr

/-- One tag per LOGGER call site of autobatch.py, in source order.
Payloads record the batch size interpolated into the message where the
claims mention it. -/
inductive LogEvent where
  | computingInfo                      -- line 31
  | cpuDefaultInfo (d : Int)           -- line 35
  | determinedInfo (b : Int)           -- line 69
  | parseErrorLog                      -- line 72 (LOGGER.error with stdout/stderr)
  | subprocessWarn                     -- line 76
  | subprocessStdoutWarn               -- line 77
  | subprocessStderrWarn               -- line 78
  | errorWarn                          -- line 80
  | usingDefaultWarn (d : Int)         -- line 81
  | abComputingInfo                    -- line 105
  | abCpuDefaultInfo (b : Int)         -- line 108
  | abCudnnDefaultInfo (b : Int)       -- line 111
  | abMemInfo                          -- line 122
  | abAnomalyWarn (b : Int)            -- line 140
  | abUsingInfo (b : Int)              -- line 143
  | abErrorWarn (b : Int)              -- line 146
deriving DecidableEq, Repr

/-- Environment of one check_train_batch_size call: the device type of the
model's parameters (line 33), the externally configured DEFAULT_CFG.batch,
whether torch.save at line 43 succeeds, whether the child process exits with
status zero (subprocess.run with check=True at line 61 raises
CalledProcessError otherwise), and the parsed shape of the child's stdout.
The imgsz, amp and batch arguments only flow into the code string executed
by the child, so they are absorbed into the stdout abstraction. -/
structure CheckEnv where
  deviceType : String
  defaultBatch : Int
  saveOk : Bool
  exitZero : Bool
  stdout : ParsedStdout
deriving DecidableEq, Repr

/-- Observable result of a check_train_batch_size call: the outcome seen by
the caller, whether the temporary model file still exists on disk when the
call ends, whether a child process was spawned, and the log events. -/
structure CheckResult where
  outcome : PyOutcome
  tmpFileExists : Bool
  spawnedSubprocess : Bool
  logs : List LogEvent
deriving DecidableEq, Repr

/-- check_train_batch_size of autobatch.py lines 17-87.

Control flow translated from the source:
  * lines 34-36: a cpu or mps device returns DEFAULT_CFG.batch at once, before
    the try block, so no temporary file and no child process.
  * lines 42-44: the temporary file is created; tmp_file_path is bound only
    AFTER torch.save succeeds. If torch.save raises, the outer except Exception
    handler (lines 79-82) would return the default, but the finally block
    (line 86) then evaluates the unbound name tmp_file_path, so the call ends
    with a NameError escaping to the caller and the file is left on disk.
  * line 61: a non-zero child exit raises CalledProcessError; its handler
    (lines 75-78) logs three warnings and has no return statement, so the
    function falls off the end and returns Python None; the finally block
    unlinks the file.
  * lines 64-73: on exit status zero the stdout is parsed. A JSONDecodeError
    is logged (line 72) and re-raised into the except Exception handler, which
    logs and returns the default. An "error" field raises RuntimeError
    (line 67) into the same handler; a missing "batch_size" field raises there
    too. Otherwise the reported batch_size is returned unchanged (line 70).
  * lines 84-87: on every path where tmp_file_path is bound the finally block
    unlinks the temporary file. -/
def check_train_batch_size (env : CheckEnv) : CheckResult :=
  if env.deviceType = "cpu" ∨ env.deviceType = "mps" then
    { outcome := .ret (some env.defaultBatch)
      tmpFileExists := false
      spawnedSubprocess := false
      logs := [.computingInfo, .cpuDefaultInfo env.defaultBatch] }
  else if env.saveOk = false then
    { outcome := .raised
      tmpFileExists := true
      spawnedSubprocess := false
      logs := [.computingInfo, .errorWarn, .usingDefaultWarn env.defaultBatch] }
  else if env.exitZero = false then
    { outcome := .ret none
      tmpFileExists := false
      spawnedSubprocess := true
      logs := [.computingInfo, .subprocessWarn, .subprocessStdoutWarn,
               .subprocessStderrWarn] }
  else
    match env.stdout with
    | .withBatch v =>
        { outcome := .ret (some v)
          tmpFileExists := false
          spawnedSubprocess := true
          logs := [.computingInfo, .determinedInfo v] }
    | .withError _ =>
        { outcome := .ret (some env.defaultBatch)
          tmpFileExists := false
          spawnedSubprocess := true
          logs := [.computingInfo, .errorWarn, .usingDefaultWarn env.defaultBatch] }
    | .missingBatch =>
        { outcome := .ret (some env.defaultBatch)
          tmpFileExists := false
          spawnedSubprocess := true
          logs := [.computingInfo, .errorWarn, .usingDefaultWarn env.defaultBatch] }
    | .notJson _ =>
        { outcome := .ret (some env.defaultBatch)
          tmpFileExists := false
          spawnedSubprocess := true
          logs := [.computingInfo, .parseErrorLog, .errorWarn,
                   .usingDefaultWarn env.defaultBatch] }

/-- Outcome of the profiling step of autobatch (lines 127-128): either the
try block raises before or during profile (torch.empty or profile itself
failing), or profile returns one entry per candidate batch size, None for a
candidate that failed, and the measured memory in GiB otherwise (the x[2]
component selected at line 131). -/
inductive ProfileOutcome where
  | raises
  | results (rs : List (Option ℚ))
deriving DecidableEq, Repr

/-- Environment of one autobatch call: the device type (line 106), the
torch.backends.cudnn.benchmark flag (line 110), the CUDA memory counters in
GiB (total, reserved, allocated; lines 118-120), the fraction argument, the
default batch_size argument, and the profiler outcome. imgsz only flows into
the profiled tensors, so it is absorbed into the profile abstraction. -/
structure AutobatchEnv where
  deviceType : String
  cudnnBenchmark : Bool
  t : ℚ
  r : ℚ
  a : ℚ
  fraction : ℚ
  batch_size : Int
  profile : ProfileOutcome
deriving DecidableEq, Repr

/-- Observable result of an autobatch call: the returned batch size, whether
the profiler was invoked, and the log events. autobatch never raises: every
exception inside the try block is absorbed at lines 145-147. -/
structure ABResult where
  value : Int
  profilerInvoked : Bool
  logs : List LogEvent
deriving DecidableEq, Repr

/-- Candidate batch sizes of autobatch, line 125. -/
def batch_sizes : List Int := [1, 2, 4, 8, 16]

/-- Python int() on a real value: truncation toward zero, as applied by
autobatch at line 133. -/
def pyInt (q : ℚ) : Int := if 0 ≤ q then ⌊q⌋ else ⌈q⌉

/-- Least-squares first-degree polynomial fit, np.polyfit(xs, ys, deg=1) at
line 132, returning (slope, intercept). Mismatched lengths, the empty input
and rank-deficient inputs (fewer than two distinct sample positions), on
which numpy raises or emits a degenerate minimum-norm solution, are modelled
as a failure (none), which autobatch's except handler turns into the default
batch size. -/
def polyfit1 (xs ys : List ℚ) : Option (ℚ × ℚ) :=
  if xs.length ≠ ys.length then none
  else
    let n : ℚ := xs.length
    let sx := xs.sum
    let sy := ys.sum
    let sxy := ((List.zip xs ys).map (fun p => p.1 * p.2)).sum
    let sxx := (xs.map (fun x => x * x)).sum
    let d := n * sxx - sx * sx
    if d = 0 then none
    else
      let m := (n * sxy - sx * sy) / d
      some (m, (sy - m * sx) / n)

/-- The valid memory samples, y = [x[2] for x in results if x] at line 131:
the non-None entries of the profile results, in order. -/
def validMems (rs : List (Option ℚ)) : List ℚ := rs.filterMap id

/-- The sample positions paired with the valid memories,
batch_sizes[: len(y)] at line 132, cast to rationals. -/
def fitXs (rs : List (Option ℚ)) : List ℚ :=
  (batch_sizes.take (validMems rs).length).map (fun z => (z : ℚ))

/-- Lines 131-133 of autobatch: fit the line and solve
b = int((f * fraction - intercept) / slope). A zero slope, on which the
float division yields an infinity or NaN that int() then rejects, is
modelled as a failure (none) absorbed by the except handler. -/
def solveB (f fraction : ℚ) (rs : List (Option ℚ)) : Option Int :=
  match polyfit1 (fitXs rs) (validMems rs) with
  | none => none
  | some (m, c) =>
      if m = 0 then none
      else some (pyInt ((f * fraction - c) / m))

/-- Index of the first None entry, results.index(None) at line 135
(only ever used when a None is present). -/
def firstNoneIdx : List (Option ℚ) → Nat
  | [] => 0
  | none :: _ => 0
  | some _ :: rest => firstNoneIdx rest + 1

/-- Lines 134-137 of autobatch: when some candidate failed, and the solution
b sits at or above the batch size of the first failed candidate, replace it
by batch_sizes[max(i - 1, 0)], the prior safe point. An out-of-range index
(IndexError, impossible for the five-entry profile output) is modelled as a
failure (none) absorbed by the except handler. -/
def clampToSafe (b : Int) (rs : List (Option ℚ)) : Option Int :=
  if rs.contains none then
    match batch_sizes.get? (firstNoneIdx rs) with
    | none => none
    | some bi =>
        if bi ≤ b then some (batch_sizes.getD (firstNoneIdx rs - 1) 0)
        else some b
  else some b

/-- autobatch of autobatch.py lines 90-147.

Control flow translated from the source:
  * lines 107-109: a cpu or mps device returns the default batch_size.
  * lines 110-112: cudnn benchmark mode returns the default batch_size.
  * line 121: f = t - (r + a), the free memory in GiB.
  * lines 126-144: the try block profiles the five candidates, fits the
    line, solves for b, clamps past the first failure, replaces an
    out-of-range b (b < 1 or b > 1024) by the default with a warning
    (lines 138-141), and returns b (line 144).
  * lines 145-147: any exception inside the try block is logged and the
    default batch_size is returned. -/
def autobatch (env : AutobatchEnv) : ABResult :=
  if env.deviceType = "cpu" ∨ env.deviceType = "mps" then
    { value := env.batch_size
      profilerInvoked := false
      logs := [.abComputingInfo, .abCpuDefaultInfo env.batch_size] }
  else if env.cudnnBenchmark then
    { value := env.batch_size
      profilerInvoked := false
      logs := [.abComputingInfo, .abCudnnDefaultInfo env.batch_size] }
  else
    match env.profile with
    | .raises =>
        { value := env.batch_size
          profilerInvoked := true
          logs := [.abComputingInfo, .abMemInfo, .abErrorWarn env.batch_size] }
    | .results rs =>
        match solveB (env.t - (env.r + env.a)) env.fraction rs with
        | none =>
            { value := env.batch_size
              profilerInvoked := true
              logs := [.abComputingInfo, .abMemInfo, .abErrorWarn env.batch_size] }
        | some b0 =>
            match clampToSafe b0 rs with
            | none =>
                { value := env.batch_size
                  profilerInvoked := true
                  logs := [.abComputingInfo, .abMemInfo,
                           .abErrorWarn env.batch_size] }
            | some b1 =>
                if b1 < 1 ∨ b1 > 1024 then
                  { value := env.batch_size
                    profilerInvoked := true
                    logs := [.abComputingInfo, .abMemInfo,
                             .abAnomalyWarn env.batch_size,
                             .abUsingInfo env.batch_size] }
                else
                  { value := b1
                    profilerInvoked := true
                    logs := [.abComputingInfo, .abMemInfo, .abUsingInfo b1] }

/-- Profiling samples of the end-to-end scenario of the spec: all five
candidates succeed with memories 0.5, 0.9, 1.7, 3.3, 6.5 GiB. -/
def rsAll : List (Option ℚ) :=
  [some (5/10), some (9/10), some (17/10), some (33/10), some (65/10)]

/-- Profiling samples where the very first candidate (batch size 1) fails
and the remaining four succeed. -/
def rsFail0 : List (Option ℚ) :=
  [none, some (9/10), some (17/10), some (33/10), some (65/10)]

/-- Profiling samples where the first two candidates succeed and the
candidate at index 2 (batch size 4) is the first failure. -/
def rsFail2 : List (Option ℚ) :=
  [some (5/10), some (9/10), none, none, none]

/-- End-to-end scenario environment: accelerator device, benchmark off,
10 GiB total and nothing reserved or allocated (so 10 GiB free), fraction
0.6, default batch size 16, all five samples succeeding. -/
def envScenarioAll10 : AutobatchEnv :=
  ⟨"cuda:0", false, 10, 0, 0, 6/10, 16, .results rsAll⟩

/-- Large-memory environment: 1000 GiB free, fraction 0.6, default batch
size 2000, all five samples succeeding; the fit solves far above 1024. -/
def envScenarioAll1000 : AutobatchEnv :=
  ⟨"cuda:0", false, 1000, 0, 0, 6/10, 2000, .results rsAll⟩

/-- Environment whose profiling fails at the very first candidate. -/
def envFailFirst : AutobatchEnv :=
  ⟨"cuda:0", false, 10, 0, 0, 6/10, 16, .results rsFail0⟩

/-- Environment whose profiling fails first at candidate index 2. -/
def envFailThird : AutobatchEnv :=
  ⟨"cuda:0", false, 10, 0, 0, 6/10, 16, .results rsFail2⟩

/-- Evaluation rule for pyInt on a nonnegative value: it is the unique
integer n with n ≤ q < n + 1. -/
lemma pyInt_eq_of_nonneg {q : ℚ} {n : ℤ} (h0 : 0 ≤ q) (h1 : (n : ℚ) ≤ q)
    (h2 : q < n + 1) : pyInt q = n := by
  rw [pyInt, if_pos h0, Int.floor_eq_iff]
  exact ⟨h1, h2⟩

/-- Unfolding rule for autobatch on the fully successful path: accelerator
device, benchmark off, profiling returns results, the fit solves to b0,
clamping yields b1, and b1 lies inside [1, 1024]; the call then returns b1. -/
lemma autobatch_success (env : AutobatchEnv) (rs : List (Option ℚ))
    (b0 b1 : Int)
    (hdev : ¬(env.deviceType = "cpu" ∨ env.deviceType = "mps"))
    (hbench : env.cudnnBenchmark = false)
    (hprof : env.profile = .results rs)
    (hsolve : solveB (env.t - (env.r + env.a)) env.fraction rs = some b0)
    (hclamp : clampToSafe b0 rs = some b1)
    (hrange : ¬(b1 < 1 ∨ b1 > 1024)) :
    autobatch env =
      { value := b1
        profilerInvoked := true
        logs := [.abComputingInfo, .abMemInfo, .abUsingInfo b1] } := by
  rw [autobatch, if_neg hdev, hbench]
  simp only [Bool.false_eq_true, if_false, hprof, hsolve, hclamp]
  rw [if_neg hrange]

/-- Unfolding rule for autobatch on the anomaly path: as in
autobatch_success but the clamped solution b1 falls outside [1, 1024], so
the default batch_size is returned with the anomaly warning. -/
lemma autobatch_anomaly (env : AutobatchEnv) (rs : List (Option ℚ))
    (b0 b1 : Int)
    (hdev : ¬(env.deviceType = "cpu" ∨ env.deviceType = "mps"))
    (hbench : env.cudnnBenchmark = false)
    (hprof : env.profile = .results rs)
    (hsolve : solveB (env.t - (env.r + env.a)) env.fraction rs = some b0)
    (hclamp : clampToSafe b0 rs = some b1)
    (hrange : b1 < 1 ∨ b1 > 1024) :
    autobatch env =
      { value := env.batch_size
        profilerInvoked := true
        logs := [.abComputingInfo, .abMemInfo, .abAnomalyWarn env.batch_size,
                 .abUsingInfo env.batch_size] } := by
  rw [autobatch, if_neg hdev, hbench]
  simp only [Bool.false_eq_true, if_false, hprof, hsolve, hclamp]
  rw [if_pos hrange]

/-- Every autobatch call either returns the caller-supplied default
batch_size verbatim or a value inside [1, 1024]. -/
lemma autobatch_value_default_or_inrange (env : AutobatchEnv) :
    (autobatch env).value = env.batch_size ∨
    (1 ≤ (autobatch env).value ∧ (autobatch env).value ≤ 1024) := by
  rw [autobatch]
  split
  · exact Or.inl rfl
  split
  · exact Or.inl rfl
  split
  · exact Or.inl rfl
  split
  · exact Or.inl rfl
  split
  · exact Or.inl rfl
  split
  · exact Or.inl rfl
  · rename_i b1 hrange
    right
    push_neg at hrange
    exact ⟨hrange.1, hrange.2⟩

/-- The least-squares line through the five scenario samples has slope 2/5
and intercept 1/10 (the samples are collinear). -/
lemma fit_rsAll : polyfit1 (fitXs rsAll) (validMems rsAll) = some (2/5, 1/10) := by
  simp [polyfit1, fitXs, validMems, batch_sizes, rsAll]
  norm_num

/-- With 10 GiB free and fraction 0.6 the scenario fit solves to
int((10 * 0.6 - 0.1) / 0.4) = int(14.75) = 14. -/
lemma solveB_rsAll_ten : solveB 10 (6/10) rsAll = some 14 := by
  rw [solveB, fit_rsAll]
  norm_num
  apply pyInt_eq_of_nonneg <;> norm_num

/-- With 1000 GiB free and fraction 0.6 the scenario fit solves to
int((600 - 0.1) / 0.4) = int(1499.75) = 1499. -/
lemma solveB_rsAll_thousand : solveB 1000 (6/10) rsAll = some 1499 := by
  rw [solveB, fit_rsAll]
  norm_num
  apply pyInt_eq_of_nonneg <;> norm_num

/-- The least-squares line through the four valid samples of rsFail0,
paired with positions 1, 2, 4, 8, has slope 4/5 and intercept 1/10. -/
lemma fit_rsFail0 :
    polyfit1 (fitXs rsFail0) (validMems rsFail0) = some (4/5, 1/10) := by
  simp [polyfit1, fitXs, validMems, batch_sizes, rsFail0]
  norm_num

/-- With 10 GiB free and fraction 0.6 the rsFail0 fit solves to
int((6 - 0.1) / 0.8) = int(7.375) = 7. -/
lemma solveB_rsFail0 : solveB 10 (6/10) rsFail0 = some 7 := by
  rw [solveB, fit_rsFail0]
  norm_num
  apply pyInt_eq_of_nonneg <;> norm_num

/-- The least-squares line through the two valid samples of rsFail2 has
slope 2/5 and intercept 1/10. -/
lemma fit_rsFail2 :
    polyfit1 (fitXs rsFail2) (validMems rsFail2) = some (2/5, 1/10) := by
  simp [polyfit1, fitXs, validMems, batch_sizes, rsFail2]
  norm_num

/-- With 10 GiB free and fraction 0.6 the rsFail2 fit solves to 14. -/
lemma solveB_rsFail2 : solveB 10 (6/10) rsFail2 = some 14 := by
  rw [solveB, fit_rsFail2]
  norm_num
  apply pyInt_eq_of_nonneg <;> norm_num

/-- When some candidate failed, the first failure sits at index i < 5, and
the solution b0 is at or above the batch size at index i, the clamp of
lines 134-137 selects batch_sizes[max(i - 1, 0)]. -/
lemma clampToSafe_of_ge (b0 : Int) (rs : List (Option ℚ)) (i : Nat)
    (hnone : rs.contains none = true) (hidx : firstNoneIdx rs = i)
    (hi5 : i < 5) (hge : batch_sizes.getD i 0 ≤ b0) :
    clampToSafe b0 rs = some (batch_sizes.getD (i - 1) 0) := by
  rw [clampToSafe, if_pos hnone, hidx]
  have hbi : batch_sizes.get? i = some (batch_sizes.getD i 0) := by
    interval_cases i <;> decide
  rw [hbi]
  simp only [if_pos hge]

/-- C1. The claim states that check_train_batch_size never raises and always
returns a positive integer, and that on a non-zero child exit it logs the
diagnostics and falls back to DEFAULT_CFG.batch. The code contradicts this
and its own docstring (which promises an int): the CalledProcessError
handler at lines 75-78 logs the three diagnostics but has no return
statement, so the call falls off the end of the function and returns Python
None, not DEFAULT_CFG.batch. This theorem evaluates the model at the
failing input (accelerator device, successful save, non-zero child exit,
default 16). -/
theorem C1_subprocess_failure_returns_none :
    (check_train_batch_size ⟨"cuda:0", 16, true, false, .withBatch 8⟩).outcome
        = .ret none ∧
    LogEvent.subprocessWarn ∈
      (check_train_batch_size ⟨"cuda:0", 16, true, false, .withBatch 8⟩).logs ∧
    LogEvent.subprocessStderrWarn ∈
      (check_train_batch_size ⟨"cuda:0", 16, true, false, .withBatch 8⟩).logs ∧
    (check_train_batch_size ⟨"cuda:0", 16, true, false, .withBatch 8⟩).outcome
        ≠ .ret (some 16) := by
  decide

/-- C4. For every subprocess stdout string that is not valid JSON (with the
child having exited successfully, so that parsing is reached),
check_train_batch_size returns the default batch size DEFAULT_CFG.batch,
logs a parse error, and does not raise to the caller. -/
theorem C4_malformed_json_returns_default (env : CheckEnv) (s : String)
    (hdev1 : env.deviceType ≠ "cpu") (hdev2 : env.deviceType ≠ "mps")
    (hsave : env.saveOk = true) (hexit : env.exitZero = true)
    (hstdout : env.stdout = .notJson s) :
    (check_train_batch_size env).outcome = .ret (some env.defaultBatch) ∧
    LogEvent.parseErrorLog ∈ (check_train_batch_size env).logs ∧
    (check_train_batch_size env).outcome ≠ .raised := by
  simp [check_train_batch_size, hdev1, hdev2, hsave, hexit, hstdout]

/-- Witness for C4 at a concrete input. -/
theorem C4_malformed_json_returns_default_witness :
    (check_train_batch_size ⟨"cuda:0", 16, true, true, .notJson "oops"⟩).outcome
        = .ret (some 16) ∧
    LogEvent.parseErrorLog ∈
      (check_train_batch_size ⟨"cuda:0", 16, true, true, .notJson "oops"⟩).logs ∧
    (check_train_batch_size ⟨"cuda:0", 16, true, true, .notJson "oops"⟩).outcome
        ≠ .raised :=
  C4_malformed_json_returns_default ⟨"cuda:0", 16, true, true, .notJson "oops"⟩
    "oops" (by decide) (by decide) rfl rfl rfl

/-- C5. On a CPU-class device ("cpu" or "mps"), check_train_batch_size
returns the default batch size immediately without spawning a subprocess,
and autobatch returns the default batch size immediately without invoking
the profiler. -/
theorem C5_cpu_short_circuit (cEnv : CheckEnv) (aEnv : AutobatchEnv)
    (hc : cEnv.deviceType = "cpu" ∨ cEnv.deviceType = "mps")
    (ha : aEnv.deviceType = "cpu" ∨ aEnv.deviceType = "mps") :
    ((check_train_batch_size cEnv).outcome = .ret (some cEnv.defaultBatch) ∧
     (check_train_batch_size cEnv).spawnedSubprocess = false) ∧
    ((autobatch aEnv).value = aEnv.batch_size ∧
     (autobatch aEnv).profilerInvoked = false) := by
  constructor
  · rw [check_train_batch_size, if_pos hc]
    exact ⟨rfl, rfl⟩
  · rw [autobatch, if_pos ha]
    exact ⟨rfl, rfl⟩

/-- Witness for C5 at concrete cpu and mps inputs. -/
theorem C5_cpu_short_circuit_witness :
    (((check_train_batch_size ⟨"cpu", 16, true, true, .withBatch 8⟩).outcome
        = .ret (some 16) ∧
      (check_train_batch_size ⟨"cpu", 16, true, true, .withBatch 8⟩).spawnedSubprocess
        = false) ∧
     ((autobatch ⟨"mps", false, 10, 0, 0, 6/10, 16, .raises⟩).value = 16 ∧
      (autobatch ⟨"mps", false, 10, 0, 0, 6/10, 16, .raises⟩).profilerInvoked
        = false)) :=
  C5_cpu_short_circuit ⟨"cpu", 16, true, true, .withBatch 8⟩
    ⟨"mps", false, 10, 0, 0, 6/10, 16, .raises⟩ (Or.inl rfl) (Or.inr rfl)

/-- C7 counterexample. The claim states that after every call reaching the
temporary-file creation step the file no longer exists, on every failure
path. At the input where torch.save fails after the file was created, the
except handler is entered but the finally block evaluates the still-unbound
tmp_file_path, so the call ends with an exception and the file is left on
disk. -/
theorem C7_counterexample_save_failure_leaks_file :
    (check_train_batch_size ⟨"cuda:0", 16, false, true, .withBatch 8⟩).tmpFileExists
        = true ∧
    (check_train_batch_size ⟨"cuda:0", 16, false, true, .withBatch 8⟩).outcome
        = .raised := by
  decide

/-- C7 amended. After every call to check_train_batch_size in which
torch.save succeeds (in particular every call that spawns the subprocess),
the temporary model file no longer exists when the call ends, on the
success path and on every failure path, because the cleanup runs in a
finally block. -/
theorem C7_tmpfile_removed_when_save_succeeds (env : CheckEnv)
    (hsave : env.saveOk = true) :
    (check_train_batch_size env).tmpFileExists = false := by
  rw [check_train_batch_size]
  split
  · rfl
  · rw [hsave]
    simp only [Bool.true_eq_false, if_false]
    split
    · rfl
    · split <;> rfl

/-- Witness for C7 at a concrete input on a failure path (non-zero child
exit): the temporary file is still removed. -/
theorem C7_tmpfile_removed_witness :
    (check_train_batch_size ⟨"cuda:0", 16, true, false, .missingBatch⟩).tmpFileExists
        = false :=
  C7_tmpfile_removed_when_save_succeeds
    ⟨"cuda:0", 16, true, false, .missingBatch⟩ rfl

/-- C9. When the child exits successfully and its stdout parses as JSON
with a batch_size field (and no error field), check_train_batch_size
returns that value exactly as reported, for every integer v, with no
positivity or range validation in the parent process. -/
theorem C9_reported_batch_returned_verbatim (env : CheckEnv) (v : Int)
    (hdev1 : env.deviceType ≠ "cpu") (hdev2 : env.deviceType ≠ "mps")
    (hsave : env.saveOk = true) (hexit : env.exitZero = true)
    (hstdout : env.stdout = .withBatch v) :
    (check_train_batch_size env).outcome = .ret (some v) := by
  simp [check_train_batch_size, hdev1, hdev2, hsave, hexit, hstdout]

/-- Witness for C9 at a concrete input: the child reports -5, a value that
is neither positive nor inside [1, 1024], and the parent returns it. -/
theorem C9_reported_batch_returned_verbatim_witness :
    (check_train_batch_size ⟨"cuda:0", 16, true, true, .withBatch (-5)⟩).outcome
        = .ret (some (-5)) :=
  C9_reported_batch_returned_verbatim ⟨"cuda:0", 16, true, true, .withBatch (-5)⟩
    (-5) (by decide) (by decide) rfl rfl rfl

/-- solveB at the end-to-end scenario environment. -/
lemma solveB_envScenarioAll10 :
    solveB (envScenarioAll10.t - (envScenarioAll10.r + envScenarioAll10.a))
      envScenarioAll10.fraction rsAll = some 14 := by
  have ht : envScenarioAll10.t - (envScenarioAll10.r + envScenarioAll10.a) = 10 := by
    norm_num [envScenarioAll10]
  rw [ht]
  exact solveB_rsAll_ten

/-- solveB at the large-memory environment. -/
lemma solveB_envScenarioAll1000 :
    solveB (envScenarioAll1000.t - (envScenarioAll1000.r + envScenarioAll1000.a))
      envScenarioAll1000.fraction rsAll = some 1499 := by
  have ht : envScenarioAll1000.t - (envScenarioAll1000.r + envScenarioAll1000.a)
      = 1000 := by
    norm_num [envScenarioAll1000]
  rw [ht]
  exact solveB_rsAll_thousand

/-- solveB at the environment whose first candidate failed. -/
lemma solveB_envFailFirst :
    solveB (envFailFirst.t - (envFailFirst.r + envFailFirst.a))
      envFailFirst.fraction rsFail0 = some 7 := by
  have ht : envFailFirst.t - (envFailFirst.r + envFailFirst.a) = 10 := by
    norm_num [envFailFirst]
  rw [ht]
  exact solveB_rsFail0

/-- solveB at the environment whose first failure is at index 2. -/
lemma solveB_envFailThird :
    solveB (envFailThird.t - (envFailThird.r + envFailThird.a))
      envFailThird.fraction rsFail2 = some 14 := by
  have ht : envFailThird.t - (envFailThird.r + envFailThird.a) = 10 := by
    norm_num [envFailThird]
  rw [ht]
  exact solveB_rsFail2

/-- C2 counterexample. The claim states that whenever profiling failed at
the first-None index i and the unclamped solution is at or above
batch_sizes[i], the returned batch size is strictly below batch_sizes[i].
At an input whose very first candidate (index 0, batch size 1) failed, with
solution 7 >= 1, the clamp selects batch_sizes[max(-1, 0)] = batch_sizes[0]
= 1, and the returned batch size 1 is not strictly below 1. -/
theorem C2_counterexample_failure_at_index_zero :
    firstNoneIdx rsFail0 = 0 ∧
    solveB (envFailFirst.t - (envFailFirst.r + envFailFirst.a))
        envFailFirst.fraction rsFail0 = some 7 ∧
    batch_sizes.getD (firstNoneIdx rsFail0) 0 ≤ 7 ∧
    (autobatch envFailFirst).value = 1 ∧
    ¬((autobatch envFailFirst).value
        < batch_sizes.getD (firstNoneIdx rsFail0) 0) := by
  have hclamp : clampToSafe 7 rsFail0 = some 1 := by decide
  have heq := autobatch_success envFailFirst rsFail0 7 1 (by decide) rfl rfl
    solveB_envFailFirst hclamp (by decide)
  refine ⟨by decide, solveB_envFailFirst, by decide, ?_, ?_⟩
  · rw [heq]
  · rw [heq]
    decide

/-- C2 amended. If profiling failed first at candidate index i with
1 <= i < 5 (so the failed candidate is not the very first one), the fit
solved to b0, and b0 is at or above the batch size at index i, then
autobatch returns batch_sizes[i - 1], which is strictly less than the batch
size at index i; at i = 0 the clamp instead returns batch_sizes[0] itself. -/
theorem C2_clamped_strictly_below_failure (env : AutobatchEnv)
    (rs : List (Option ℚ)) (b0 : Int)
    (hdev : ¬(env.deviceType = "cpu" ∨ env.deviceType = "mps"))
    (hbench : env.cudnnBenchmark = false)
    (hprof : env.profile = .results rs)
    (hsolve : solveB (env.t - (env.r + env.a)) env.fraction rs = some b0)
    (hnone : rs.contains none = true)
    (hi1 : 1 ≤ firstNoneIdx rs) (hi5 : firstNoneIdx rs < 5)
    (hge : batch_sizes.getD (firstNoneIdx rs) 0 ≤ b0) :
    (autobatch env).value = batch_sizes.getD (firstNoneIdx rs - 1) 0 ∧
    (autobatch env).value < batch_sizes.getD (firstNoneIdx rs) 0 := by
  obtain ⟨i, hidx⟩ : ∃ n, firstNoneIdx rs = n := ⟨_, rfl⟩
  rw [hidx] at hi1 hi5 hge ⊢
  have hclamp := clampToSafe_of_ge b0 rs i hnone hidx hi5 hge
  interval_cases i <;>
    (rw [autobatch_success env rs b0 _ hdev hbench hprof hsolve hclamp
      (by decide)]; decide)

/-- Witness for C2 at a concrete input: first failure at index 2 (batch
size 4), solution 14 >= 4, returned batch size batch_sizes[1] = 2 < 4. -/
theorem C2_clamped_strictly_below_failure_witness :
    (autobatch envFailThird).value = batch_sizes.getD (firstNoneIdx rsFail2 - 1) 0 ∧
    (autobatch envFailThird).value < batch_sizes.getD (firstNoneIdx rsFail2) 0 :=
  C2_clamped_strictly_below_failure envFailThird rsFail2 14 (by decide) rfl rfl
    solveB_envFailThird (by decide) (by decide) (by decide) (by decide)

/-- C3 counterexample. The claim states autobatch always returns an integer
in [1, 1024]. At an input with 1000 GiB free the solution 1499 is out of
range, the code falls back to the caller-supplied default 2000, and the
returned value 2000 itself lies outside [1, 1024]. -/
theorem C3_counterexample_out_of_range_default :
    (autobatch envScenarioAll1000).value = 2000 ∧
    ¬(1 ≤ (autobatch envScenarioAll1000).value ∧
      (autobatch envScenarioAll1000).value ≤ 1024) := by
  have heq := autobatch_anomaly envScenarioAll1000 rsAll 1499 1499 (by decide)
    rfl rfl solveB_envScenarioAll1000 (by decide) (by decide)
  rw [heq]
  exact ⟨rfl, by decide⟩

/-- C3 amended. autobatch returns an integer in [1, 1024] whenever the
caller-supplied default batch_size lies in [1, 1024]; and whenever the
computed (possibly clamped) solution b falls outside [1, 1024], the
function falls back to the caller-supplied default and logs the anomaly
warning. The default itself is returned without any range check. -/
theorem C3_range_requires_default_in_range :
    (∀ env : AutobatchEnv, 1 ≤ env.batch_size → env.batch_size ≤ 1024 →
        1 ≤ (autobatch env).value ∧ (autobatch env).value ≤ 1024) ∧
    (∀ (env : AutobatchEnv) (rs : List (Option ℚ)) (b0 b1 : Int),
        ¬(env.deviceType = "cpu" ∨ env.deviceType = "mps") →
        env.cudnnBenchmark = false →
        env.profile = .results rs →
        solveB (env.t - (env.r + env.a)) env.fraction rs = some b0 →
        clampToSafe b0 rs = some b1 →
        b1 < 1 ∨ b1 > 1024 →
        (autobatch env).value = env.batch_size ∧
        LogEvent.abAnomalyWarn env.batch_size ∈ (autobatch env).logs) := by
  constructor
  · intro env h1 h2
    rcases autobatch_value_default_or_inrange env with h | h
    · rw [h]
      exact ⟨h1, h2⟩
    · exact h
  · intro env rs b0 b1 hdev hbench hprof hsolve hclamp hrange
    rw [autobatch_anomaly env rs b0 b1 hdev hbench hprof hsolve hclamp hrange]
    exact ⟨rfl, by simp⟩

/-- Witness for C3 at concrete inputs: a default of 16 yields a value in
range on a cpu environment, and the large-memory environment takes the
anomaly fallback with its warning. -/
theorem C3_range_requires_default_in_range_witness :
    (1 ≤ (autobatch ⟨"cpu", false, 0, 0, 0, 0, 16, .raises⟩).value ∧
     (autobatch ⟨"cpu", false, 0, 0, 0, 0, 16, .raises⟩).value ≤ 1024) ∧
    ((autobatch envScenarioAll1000).value = envScenarioAll1000.batch_size ∧
     LogEvent.abAnomalyWarn envScenarioAll1000.batch_size ∈
       (autobatch envScenarioAll1000).logs) :=
  ⟨C3_range_requires_default_in_range.1 ⟨"cpu", false, 0, 0, 0, 0, 16, .raises⟩
      (by decide) (by decide),
   C3_range_requires_default_in_range.2 envScenarioAll1000 rsAll 1499 1499
      (by decide) rfl rfl solveB_envScenarioAll1000 (by decide) (by decide)⟩

/-- C6. For the profiling samples (1, 0.5), (2, 0.9), (4, 1.7), (8, 3.3),
(16, 6.5) with all candidates succeeding, 10 GiB free and fraction 0.6, the
first-degree fit has slope 2/5 = 0.4 and intercept 1/10 = 0.1, and autobatch
returns int((10 * 0.6 - 0.1) / 0.4) = int(14.75) = 14. -/
theorem C6_end_to_end_scenario :
    polyfit1 (fitXs rsAll) (validMems rsAll) = some (2/5, 1/10) ∧
    (autobatch envScenarioAll10).value = 14 := by
  refine ⟨fit_rsAll, ?_⟩
  rw [autobatch_success envScenarioAll10 rsAll 14 14 (by decide) rfl rfl
    solveB_envScenarioAll10 (by decide) (by decide)]

/-- C8. When profiling fails at the very first candidate (index 0, batch
size 1) and the solution b0 is at least 1, the clamp selects index
max(0 - 1, 0) = 0, so autobatch returns 1, the batch size of the failed
candidate itself. -/
theorem C8_failure_at_first_candidate_returns_one (env : AutobatchEnv)
    (rs : List (Option ℚ)) (b0 : Int)
    (hdev : ¬(env.deviceType = "cpu" ∨ env.deviceType = "mps"))
    (hbench : env.cudnnBenchmark = false)
    (hprof : env.profile = .results rs)
    (hsolve : solveB (env.t - (env.r + env.a)) env.fraction rs = some b0)
    (hnone : rs.contains none = true)
    (h0 : firstNoneIdx rs = 0)
    (hge : 1 ≤ b0) :
    (autobatch env).value = 1 ∧
    (autobatch env).value = batch_sizes.getD (firstNoneIdx rs) 0 := by
  have hge2 : batch_sizes.getD 0 0 ≤ b0 := by simpa [batch_sizes] using hge
  have hclamp := clampToSafe_of_ge b0 rs 0 hnone h0 (by decide) hge2
  rw [autobatch_success env rs b0 _ hdev hbench hprof hsolve hclamp (by decide),
    h0]
  exact ⟨by decide, by decide⟩

/-- Witness for C8 at a concrete input: first candidate failed, solution 7,
returned batch size 1 = batch_sizes[0]. -/
theorem C8_failure_at_first_candidate_returns_one_witness :
    (autobatch envFailFirst).value = 1 ∧
    (autobatch envFailFirst).value = batch_sizes.getD (firstNoneIdx rsFail0) 0 :=
  C8_failure_at_first_candidate_returns_one envFailFirst rsFail0 7 (by decide)
    rfl rfl solveB_envFailFirst (by decide) (by decide) (by decide)

/-- C10. For every default batch_size d, autobatch returns exactly d on the
cpu/mps branch, the cudnn-benchmark branch and the profiler-exception
branch, with no [1, 1024] range check applied to d. -/
theorem C10_default_returned_verbatim_on_bypass_branches (env : AutobatchEnv) :
    ((env.deviceType = "cpu" ∨ env.deviceType = "mps") →
        (autobatch env).value = env.batch_size) ∧
    (¬(env.deviceType = "cpu" ∨ env.deviceType = "mps") →
        env.cudnnBenchmark = true → (autobatch env).value = env.batch_size) ∧
    (¬(env.deviceType = "cpu" ∨ env.deviceType = "mps") →
        env.cudnnBenchmark = false → env.profile = .raises →
        (autobatch env).value = env.batch_size) := by
  refine ⟨fun h => ?_, fun h hb => ?_, fun h hb hp => ?_⟩
  · rw [autobatch, if_pos h]
  · rw [autobatch, if_neg h, if_pos hb]
  · rw [autobatch, if_neg h, hb, hp]
    rfl

/-- Witness for C10 at concrete inputs with the out-of-range default 5000:
all three bypass branches return 5000 verbatim. -/
theorem C10_default_returned_verbatim_witness :
    (autobatch ⟨"cpu", false, 0, 0, 0, 0, 5000, .raises⟩).value = 5000 ∧
    (autobatch ⟨"cuda:0", true, 0, 0, 0, 0, 5000, .raises⟩).value = 5000 ∧
    (autobatch ⟨"cuda:0", false, 0, 0, 0, 0, 5000, .raises⟩).value = 5000 :=
  ⟨(C10_default_returned_verbatim_on_bypass_branches
      ⟨"cpu", false, 0, 0, 0, 0, 5000, .raises⟩).1 (Or.inl rfl),
   (C10_default_returned_verbatim_on_bypass_branches
      ⟨"cuda:0", true, 0, 0, 0, 0, 5000, .raises⟩).2.1 (by decide) rfl,
   (C10_default_returned_verbatim_on_bypass_branches
      ⟨"cuda:0", false, 0, 0, 0, 0, 5000, .raises⟩).2.2 (by decide) rfl rfl⟩
